import Mathlib

/-!
Verification of the wavesurf repository (a Python package rendering
wavesurfer.js audio players as embeddable HTML for notebooks) against its
natural-language specification.

The Python modules `_options.py`, `_theme.py`, `_events.py`, `_plugins.py`,
`_controls.py`, `_html.py`, `_audio.py`, `_layouts.py` and `_core.py` are
shallowly embedded below.  Strings are modelled as `List Char`; Python dicts
as insertion-ordered association lists with unique keys; functions that can
raise return `Except PyError`.  External collaborators (the soundfile/base64
audio encoder, the bundled `wavesurfer.min.js` source, the uuid generator)
are passed in as parameters.
-/

set_option maxRecDepth 4000

/-- Strings from the Python source are modelled as lists of characters. -/
abbrev Str := List Char

/-- Characters of a Lean string literal, used to transcribe Python literals. -/
def chars (s : String) : Str := s.data

/-- Concatenation of the per-character expansions, used by the escapers. -/
def flatMapChars (f : Char → List Char) : List Char → List Char
  | [] => []
  | c :: cs => f c ++ flatMapChars f cs

/-- Python `", ".join(xs)`. -/
def joinCommaSpace : List Str → Str
  | [] => []
  | [x] => x
  | x :: xs => x ++ ',' :: ' ' :: joinCommaSpace xs

/-- Python `"".join(xs)`. -/
def concatAll : List Str → Str
  | [] => []
  | x :: xs => x ++ concatAll xs

/-- Python `"\n".join(xs)`. -/
def joinNl : List Str → Str
  | [] => []
  | [x] => x
  | x :: xs => x ++ '\n' :: joinNl xs

/-- Python `s.split("\n")`. -/
def splitNl : Str → List Str
  | [] => [[]]
  | c :: cs =>
    match splitNl cs with
    | [] => [[c]]
    | h :: t => if c = '\n' then [] :: h :: t else (c :: h) :: t

/-- Decimal rendering of a natural number, as Python `str(n)`. -/
def natRepr (n : Nat) : List Char :=
  if _h : n < 10 then [Nat.digitChar n]
  else natRepr (n / 10) ++ [Nat.digitChar (n % 10)]
  decreasing_by exact Nat.div_lt_self (by omega) (by omega)

/-- Decimal rendering of an integer, as Python `str(n)`. -/
def intRepr (n : Int) : List Char :=
  if n < 0 then '-' :: natRepr n.natAbs else natRepr n.natAbs

/-- Association-list lookup, modelling Python `dict[key]` / `dict.get(key)`. -/
def alookup {β : Type} (k : Str) : List (Str × β) → Option β
  | [] => none
  | (k', v) :: rest => if k' = k then some v else alookup k rest

/-- Python `d[k] = v`: overwrite in place if the key exists, else append. -/
def dictSet {β : Type} (l : List (Str × β)) (k : Str) (v : β) : List (Str × β) :=
  if (alookup k l).isSome then
    l.map (fun p => if p.1 = k then (k, v) else p)
  else l ++ [(k, v)]

/-- Python `d.setdefault(k, v)`: insert only when the key is absent. -/
def dictSetdefault {β : Type} (l : List (Str × β)) (k : Str) (v : β) :
    List (Str × β) :=
  if (alookup k l).isSome then l else l ++ [(k, v)]

/-- Python `base.update(ov)` on dicts with unique keys: existing keys are
overwritten in place, new keys are appended in order. -/
def dictUpdate {β : Type} (base ov : List (Str × β)) : List (Str × β) :=
  base.map (fun p =>
    match alookup p.1 ov with
    | some v => (p.1, v)
    | none => p)
  ++ ov.filter (fun q => (alookup q.1 base).isNone)

/-- Lexicographic order on strings by code point, as Python string `<=`. -/
def strLe : Str → Str → Bool
  | [], _ => true
  | _ :: _, [] => false
  | a :: as, b :: bs => if a < b then true else if b < a then false else strLe as bs

/-- Insert into a sorted list of strings. -/
def insertSorted (x : Str) : List Str → List Str
  | [] => [x]
  | y :: ys => if strLe x y then x :: y :: ys else y :: insertSorted x ys

/-- Python `sorted(strings)`. -/
def sortStrs (l : List Str) : List Str := l.foldr insertSorted []

/-- Python `xs or None` for list arguments: empty lists become `None`. -/
def optList {α : Type} (l : List α) : Option (List α) :=
  if l.isEmpty then none else some l

/-- Whether an `Except` computation finished without raising. -/
def exceptOk {ε α : Type} : Except ε α → Bool
  | .ok _ => true
  | .error _ => false

/-- Executable substring test: `needle` occurs contiguously in `hay`. -/
def containsSub (needle hay : Str) : Bool :=
  hay.tails.any (fun t => needle.isPrefixOf t)

/-! ### JSON values and `json.dumps`

Python values destined for `json.dumps` are modelled by `JsVal`.  Numeric
literals carry their rendered token (`numTok`) when they are not integers,
since Python float repr is outside the model; integers are rendered in
decimal just as `json.dumps` does. -/

inductive JsVal : Type where
  | int (n : Int)
  | numTok (s : Str)
  | str (s : Str)
  | bool (b : Bool)
  | null
  | arr (l : List JsVal)
  | obj (l : List (Str × JsVal))

/-- Four lowercase hex digits, as in Python's `\uXXXX` escapes. -/
def hex4 (n : Nat) : List Char :=
  [Nat.digitChar (n / 4096 % 16), Nat.digitChar (n / 256 % 16),
   Nat.digitChar (n / 16 % 16), Nat.digitChar (n % 16)]

/-- The `\uXXXX` escape (with surrogate pairs above U+FFFF), as emitted by
`json.dumps` with its default `ensure_ascii=True`. -/
def uEscape (n : Nat) : List Char :=
  if n ≤ 0xFFFF then '\\' :: 'u' :: hex4 n
  else
    let m := n - 0x10000
    ('\\' :: 'u' :: hex4 (0xD800 + m / 1024)) ++ ('\\' :: 'u' :: hex4 (0xDC00 + m % 1024))

/-- Per-character JSON string escaping of `json.dumps` (default options). -/
def jsonEscChar (c : Char) : List Char :=
  if c = '"' then ['\\', '"']
  else if c = '\\' then ['\\', '\\']
  else if c = '\n' then ['\\', 'n']
  else if c = '\t' then ['\\', 't']
  else if c = '\r' then ['\\', 'r']
  else if c = '\x08' then ['\\', 'b']
  else if c = '\x0c' then ['\\', 'f']
  else if c.toNat < 0x20 ∨ c.toNat > 0x7e then uEscape c.toNat
  else [c]

/-- A JSON string literal with its quotes, as `json.dumps` renders strings. -/
def jsonQuote (s : Str) : Str := '"' :: flatMapChars jsonEscChar s ++ ['"']

mutual

/-- Rendering of one JSON value, with `json.dumps` default separators. -/
def renderJson : JsVal → Str
  | .int n => intRepr n
  | .numTok s => s
  | .str s => jsonQuote s
  | .bool b => if b then chars "true" else chars "false"
  | .null => chars "null"
  | .arr l => '[' :: renderJsonArr l ++ [']']
  | .obj l => '\x7b' :: renderJsonObj l ++ ['\x7d']

/-- Array elements joined by `", "`. -/
def renderJsonArr : List JsVal → Str
  | [] => []
  | [x] => renderJson x
  | x :: xs => renderJson x ++ ',' :: ' ' :: renderJsonArr xs

/-- Object entries `"key": value` joined by `", "`. -/
def renderJsonObj : List (Str × JsVal) → Str
  | [] => []
  | [(k, v)] => jsonQuote k ++ ':' :: ' ' :: renderJson v
  | (k, v) :: xs => jsonQuote k ++ ':' :: ' ' :: renderJson v ++ ',' :: ' ' :: renderJsonObj xs

end

/-- Python `json.dumps(d)` on a dict: `{...}` with `", "`/`": "` separators. -/
def jsonDumps (l : List (Str × JsVal)) : Str :=
  '\x7b' :: renderJsonObj l ++ ['\x7d']

/-- Python `str(v)` as used when a value is interpolated into an f-string.
Only ever applied to string values in the embedded code (`render_function`). -/
def pyStr : JsVal → Str
  | .int n => intRepr n
  | .numTok s => s
  | .str s => s
  | .bool b => if b then chars "True" else chars "False"
  | .null => chars "None"
  | .arr _ => []
  | .obj _ => []

/-! ### `_options.py` -/

/-- The explicit snake_case → camelCase table `_SNAKE_TO_CAMEL`. -/
def SNAKE_TO_CAMEL : List (Str × Str) :=
  [ (chars "audio_rate", chars "audioRate"),
    (chars "auto_center", chars "autoCenter"),
    (chars "auto_scroll", chars "autoScroll"),
    (chars "autoplay", chars "autoplay"),
    (chars "backend", chars "backend"),
    (chars "bar_align", chars "barAlign"),
    (chars "bar_gap", chars "barGap"),
    (chars "bar_height", chars "barHeight"),
    (chars "bar_min_height", chars "barMinHeight"),
    (chars "bar_radius", chars "barRadius"),
    (chars "bar_width", chars "barWidth"),
    (chars "blob_mime_type", chars "blobMimeType"),
    (chars "container", chars "container"),
    (chars "csp_nonce", chars "cspNonce"),
    (chars "cursor_color", chars "cursorColor"),
    (chars "cursor_width", chars "cursorWidth"),
    (chars "drag_to_seek", chars "dragToSeek"),
    (chars "duration", chars "duration"),
    (chars "fetch_params", chars "fetchParams"),
    (chars "fill_parent", chars "fillParent"),
    (chars "height", chars "height"),
    (chars "hide_scrollbar", chars "hideScrollbar"),
    (chars "interact", chars "interact"),
    (chars "media_controls", chars "mediaControls"),
    (chars "max_peak", chars "maxPeak"),
    (chars "min_px_per_sec", chars "minPxPerSec"),
    (chars "normalize", chars "normalize"),
    (chars "progress_color", chars "progressColor"),
    (chars "render_function", chars "renderFunction"),
    (chars "sample_rate", chars "sampleRate"),
    (chars "split_channels", chars "splitChannels"),
    (chars "url", chars "url"),
    (chars "wave_color", chars "waveColor"),
    (chars "width", chars "width") ]

/-- The `WaveSurferOptions` dataclass fields, in declaration order
(the order `dataclasses.fields` iterates them). -/
def fieldsList : List Str :=
  [ chars "audio_rate", chars "auto_center", chars "auto_scroll",
    chars "autoplay", chars "backend", chars "bar_align", chars "bar_gap",
    chars "bar_height", chars "bar_min_height", chars "bar_radius",
    chars "bar_width", chars "blob_mime_type", chars "csp_nonce",
    chars "cursor_color", chars "cursor_width", chars "drag_to_seek",
    chars "duration", chars "fetch_params", chars "fill_parent",
    chars "height", chars "hide_scrollbar", chars "interact",
    chars "media_controls", chars "max_peak", chars "min_px_per_sec",
    chars "normalize", chars "progress_color", chars "render_function",
    chars "sample_rate", chars "split_channels", chars "url",
    chars "wave_color", chars "width" ]

/-- `_SNAKE_TO_CAMEL.get(name, name)` as used in `to_js_dict`. -/
def camelKey (f : Str) : Str := (alookup f SNAKE_TO_CAMEL).getD f

/-- A `WaveSurferOptions` instance: each field holds an optional value.
Only applications to members of `fieldsList` are meaningful. -/
def OptionSet : Type := Str → Option JsVal

/-- `WaveSurferOptions.to_js_dict`: camelCase dict of the non-`None` fields,
in dataclass field order. -/
def to_js_dict (o : OptionSet) : List (Str × JsVal) :=
  fieldsList.filterMap (fun f => (o f).map (fun v => (camelKey f, v)))

/-- `WaveSurferOptions.to_json`: pop `renderFunction` from the camelCase
dict, JSON-encode the rest, and if a render function was present splice it
back in as raw (unquoted) code before the closing brace. -/
def to_json (o : OptionSet) : Str :=
  let js_dict := to_js_dict o
  let render_fn := alookup (chars "renderFunction") js_dict
  let popped := js_dict.filter (fun p => p.1 ≠ chars "renderFunction")
  let json_str := jsonDumps popped
  match render_fn with
  | none => json_str
  | some v =>
      json_str.dropLast ++ (chars ", \"renderFunction\": " ++ pyStr v) ++ ['\x7d']

/-- `WaveSurferOptions.from_kwargs`: accept only known field names, ignore
unknown keys.  A field's value is the one supplied for it, if any. -/
def from_kwargs (kw : List (Str × JsVal)) : OptionSet :=
  fun f => if f ∈ fieldsList then alookup f kw else none

/-! ### `_events.py` -/

/-- The fixed event-name → callback-parameter-names table `EVENT_PARAMS`. -/
def EVENT_PARAMS : List (Str × List Str) :=
  [ (chars "audioprocess", [chars "currentTime"]),
    (chars "click", [chars "relativeX", chars "relativeY"]),
    (chars "dblclick", [chars "relativeX", chars "relativeY"]),
    (chars "decode", [chars "duration"]),
    (chars "destroy", []),
    (chars "drag", [chars "relativeX"]),
    (chars "dragend", [chars "relativeX"]),
    (chars "dragstart", [chars "relativeX"]),
    (chars "error", [chars "error"]),
    (chars "finish", []),
    (chars "init", []),
    (chars "interaction", [chars "newTime"]),
    (chars "load", [chars "url"]),
    (chars "loading", [chars "percent"]),
    (chars "pause", []),
    (chars "play", []),
    (chars "ready", [chars "duration"]),
    (chars "redraw", []),
    (chars "redrawcomplete", []),
    (chars "resize", []),
    (chars "scroll",
      [chars "visibleStartTime", chars "visibleEndTime",
       chars "scrollLeft", chars "scrollRight"]),
    (chars "seeking", [chars "currentTime"]),
    (chars "timeupdate", [chars "currentTime"]),
    (chars "zoom", [chars "minPxPerSec"]) ]

/-- The `EventHandler` dataclass. -/
structure EventHandler : Type where
  event : Str
  js : Str
  once : Bool := false

/-- `EventHandler.to_js`: the generated JS event-binding statement. -/
def EventHandler.to_js (h : EventHandler) (ws_var : Str) : Str :=
  let params := (alookup h.event EVENT_PARAMS).getD []
  let param_list := joinCommaSpace params
  let method := if h.once then chars "once" else chars "on"
  ws_var ++ '.' :: method ++ chars "(\"" ++ h.event ++
    chars "\", function(" ++ param_list ++ chars ") \x7b " ++ h.js ++ chars " \x7d);"

/-! ### `_plugins.py` -/

/-- The `PluginConfig` dataclass. -/
structure PluginConfig : Type where
  name : Str
  options : List (Str × JsVal) := []
  js_source : Option Str := none

/-- `PluginConfig.to_js_create`: the `Name.create({...})` JS expression. -/
def PluginConfig.to_js_create (p : PluginConfig) : Str :=
  let opts := if p.options.isEmpty then chars "\x7b\x7d" else jsonDumps p.options
  p.name ++ chars ".create(" ++ opts ++ chars ")"

/-! ### `_theme.py` -/

/-- The frozen `Theme` dataclass.  Field types follow the source annotations:
waveform-affecting colour fields may hold a string or a list of strings, so
they are modelled as `JsVal`; bar geometry and height are integers. -/
structure Theme : Type where
  wave_color : Option JsVal := none
  progress_color : Option JsVal := none
  cursor_color : Option Str := none
  bar_width : Option Int := none
  bar_gap : Option Int := none
  bar_radius : Option Int := none
  height : Option Nat := none
  background : Str := chars "#1a1a2e"
  border : Str := chars "1px solid rgba(255, 255, 255, 0.08)"
  border_radius : Str := chars "12px"
  padding : Str := chars "20px 24px"
  font_family : Str := chars "-apple-system, BlinkMacSystemFont, system-ui, sans-serif"
  title_color : Str := chars "rgba(255, 255, 255, 0.85)"
  title_font_size : Str := chars "0.8rem"
  title_font_weight : Str := chars "600"
  title_marker_color : Option Str := none
  title_marker_shape : Option Str := none
  play_button_style : Str := chars "circle"
  play_button_color : Str := chars "#ffffff"
  play_button_bg : Str := chars "rgba(255, 255, 255, 0.12)"
  play_button_hover_glow : Option Str := none
  time_color : Str := chars "rgba(255, 255, 255, 0.4)"
  top_accent : Option Str := none
  background_pattern : Option Str := none
  card_margin_bottom : Str := chars "8px"

/-- `Theme.waveform_overrides`: the non-`None` waveform-affecting fields as a
snake_case dict, in dataclass field order. -/
def Theme.waveform_overrides (t : Theme) : List (Str × JsVal) :=
  (match t.wave_color with
    | some v => [(chars "wave_color", v)] | none => []) ++
  (match t.progress_color with
    | some v => [(chars "progress_color", v)] | none => []) ++
  (match t.cursor_color with
    | some c => [(chars "cursor_color", JsVal.str c)] | none => []) ++
  (match t.bar_width with
    | some n => [(chars "bar_width", JsVal.int n)] | none => []) ++
  (match t.bar_gap with
    | some n => [(chars "bar_gap", JsVal.int n)] | none => []) ++
  (match t.bar_radius with
    | some n => [(chars "bar_radius", JsVal.int n)] | none => []) ++
  (match t.height with
    | some n => [(chars "height", JsVal.int (Int.ofNat n))] | none => [])

/-- The built-in `DARK` theme. -/
def DARK : Theme :=
  { wave_color := some (.str (chars "#8888aa"))
    progress_color := some (.str (chars "#6c63ff"))
    cursor_color := some (chars "#6c63ff")
    bar_width := some 2
    bar_gap := some 1
    bar_radius := some 2
    height := some 80
    background := chars "#1a1a2e"
    border := chars "1px solid rgba(255, 255, 255, 0.08)"
    title_color := chars "rgba(255, 255, 255, 0.85)"
    play_button_style := chars "circle"
    play_button_color := chars "#ffffff"
    play_button_bg := chars "rgba(108, 99, 255, 0.25)"
    time_color := chars "rgba(255, 255, 255, 0.4)" }

/-- The built-in `LIGHT` theme. -/
def LIGHT : Theme :=
  { wave_color := some (.str (chars "#555577"))
    progress_color := some (.str (chars "#4a56e2"))
    cursor_color := some (chars "#4a56e2")
    bar_width := some 2
    bar_gap := some 1
    bar_radius := some 2
    height := some 80
    background := chars "#f8f8fc"
    border := chars "1px solid rgba(0, 0, 0, 0.08)"
    title_color := chars "rgba(0, 0, 0, 0.8)"
    title_font_weight := chars "600"
    play_button_style := chars "circle"
    play_button_color := chars "#333333"
    play_button_bg := chars "rgba(74, 86, 226, 0.12)"
    time_color := chars "rgba(0, 0, 0, 0.45)" }

/-- Python errors raised by the embedded code. -/
inductive PyError : Type where
  | valueError (msg : Str)
  | typeError (msg : Str)
  | keyError (msg : Str)

/-- The mutable state of a `ThemeRegistry`: the name → theme dict and the
current default name.  A fresh registry starts empty with default "dark". -/
structure RegState : Type where
  themes : List (Str × Theme) := []
  default : Str := chars "dark"

/-- `ThemeRegistry.register` (the value is statically a `Theme` here, so the
`TypeError` branch of the source is unrepresentable). -/
def ThemeRegistry.register (r : RegState) (name : Str) (t : Theme) : RegState :=
  { r with themes := dictSet r.themes name t }

/-- `ThemeRegistry.get`: look up a theme by name; `KeyError` listing the
available names when absent. -/
def ThemeRegistry.get (r : RegState) (name : Str) : Except PyError Theme :=
  match alookup name r.themes with
  | some t => .ok t
  | none =>
      .error (.keyError (chars "Unknown theme " ++ '\x27' :: name ++ '\x27' ::
        chars ". Available: " ++ joinCommaSpace (sortStrs (r.themes.map Prod.fst))))

/-- `ThemeRegistry.enable` (via the `default` property setter): set the
default name; `KeyError` if that name is not registered. -/
def ThemeRegistry.enable (r : RegState) (name : Str) : Except PyError RegState :=
  if (alookup name r.themes).isSome then .ok { r with default := name }
  else .error (.keyError (chars "Cannot set default to unregistered theme " ++
    '\x27' :: name ++ ['\x27']))

/-- The three possible arguments of `ThemeRegistry.resolve`. -/
inductive ResolveArg : Type where
  | noneA
  | name (s : Str)
  | inst (t : Theme)

/-- `ThemeRegistry.resolve`: `None` reads the live default (plain dict access,
`KeyError` if the default name is unregistered); a string goes through
`get`; a `Theme` instance passes through unchanged. -/
def ThemeRegistry.resolve (r : RegState) : ResolveArg → Except PyError Theme
  | .noneA =>
      match alookup r.default r.themes with
      | some t => .ok t
      | none => .error (.keyError r.default)
  | .name s => ThemeRegistry.get r s
  | .inst t => .ok t

/-- The module-level `themes` registry after import: the two built-ins are
registered and "dark" is the default. -/
def themesInit : RegState :=
  ThemeRegistry.register
    (ThemeRegistry.register { themes := [], default := chars "dark" }
      (chars "dark") DARK)
    (chars "light") LIGHT

/-! ### `_controls.py` -/

/-- The frozen `Controls` dataclass. -/
structure Controls : Type where
  show_play_button : Bool := true
  show_time : Bool := true
  show_volume : Bool := false
  show_playback_rate : Bool := false
  play_button_style : Option Str := none
  layout : Str := chars "bottom"

/-- `Controls.effective_style`: explicit setting wins over the theme's. -/
def Controls.effective_style (c : Controls) (theme : Theme) : Str :=
  match c.play_button_style with
  | some s => s
  | none => theme.play_button_style

/-- `_shield_button_html`. -/
def _shield_button_html (uid : Str) (theme : Theme) : Str :=
  let glow :=
    match theme.play_button_hover_glow with
    | some g =>
        if g.isEmpty then []
        else chars " this.style.filter=\x27" ++ g ++ chars "\x27;"
    | none => []
  chars "<button id=\"play-" ++ uid ++
  chars "\" style=\"\n  width: 36px; height: 40px; border: none; cursor: pointer;\n  display: flex; align-items: center; justify-content: center;\n  padding: 0; background: transparent; position: relative;\n  transition: transform 0.2s ease, filter 0.2s ease;\n\" onmouseover=\"this.style.transform=\x27scale(1.1)\x27;" ++
  glow ++
  chars "\"\n   onmouseout=\"this.style.transform=\x27scale(1)\x27; this.style.filter=\x27none\x27\"\n>\n  <svg style=\"position: absolute; inset: 0; width: 100%; height: 100%;\"\n       viewBox=\"0 0 36 40\" fill=\"none\" xmlns=\"http://www.w3.org/2000/svg\">\n    <path d=\"M18 0L36 6V22C36 31 27 37.5 18 40C9 37.5 0 31 0 22V6L18 0Z\"\n          fill=\"url(#copperGrad-" ++
  uid ++
  chars ")\"/>\n    <defs>\n      <linearGradient id=\"copperGrad-" ++ uid ++
  chars "\" x1=\"0\" y1=\"0\" x2=\"36\" y2=\"40\">\n        <stop offset=\"0%\" stop-color=\"#d4a96a\"/>\n        <stop offset=\"100%\" stop-color=\"#b98b5a\"/>\n      </linearGradient>\n    </defs>\n  </svg>\n  <span id=\"icon-" ++
  uid ++
  chars "\" style=\"\n    position: relative; z-index: 1; color: " ++
  theme.play_button_color ++
  chars ";\n    font-size: 11px; margin-left: 2px; line-height: 1;\n  \">&#9654;</span>\n</button>"

/-- `_circle_button_html`. -/
def _circle_button_html (uid : Str) (theme : Theme) : Str :=
  chars "<button id=\"play-" ++ uid ++
  chars "\" style=\"\n  width: 36px; height: 36px; border-radius: 50%; border: none; cursor: pointer;\n  display: flex; align-items: center; justify-content: center;\n  padding: 0; background: " ++
  theme.play_button_bg ++
  chars ";\n  color: " ++ theme.play_button_color ++
  chars "; font-size: 13px;\n  transition: transform 0.15s ease, opacity 0.15s ease;\n\" onmouseover=\"this.style.transform=\x27scale(1.08)\x27; this.style.opacity=\x270.85\x27\"\n   onmouseout=\"this.style.transform=\x27scale(1)\x27; this.style.opacity=\x271\x27\"\n>\n  <span id=\"icon-" ++
  uid ++
  chars "\" style=\"margin-left: 2px; line-height: 1;\">&#9654;</span>\n</button>"

/-- `_minimal_button_html`. -/
def _minimal_button_html (uid : Str) (theme : Theme) : Str :=
  chars "<button id=\"play-" ++ uid ++
  chars "\" style=\"\n  border: none; cursor: pointer; background: transparent;\n  color: " ++
  theme.play_button_color ++
  chars "; font-size: 18px; padding: 4px 8px;\n  transition: opacity 0.15s ease;\n\" onmouseover=\"this.style.opacity=\x270.7\x27\"\n   onmouseout=\"this.style.opacity=\x271\x27\"\n>\n  <span id=\"icon-" ++
  uid ++ chars "\">&#9654;</span>\n</button>"

/-- `build_controls_html`. -/
def build_controls_html (uid : Str) (controls : Controls) (theme : Theme) : Str :=
  let parts : List Str :=
    (if controls.show_play_button then
      [let style := controls.effective_style theme
       if style = chars "shield" then _shield_button_html uid theme
       else if style = chars "minimal" then _minimal_button_html uid theme
       else _circle_button_html uid theme]
     else []) ++
    (if controls.show_time then
      [chars "<span id=\"time-" ++ uid ++ chars "\" style=\"font-size: 0.72rem; font-weight: 500; color: " ++
       theme.time_color ++
       chars "; font-variant-numeric: tabular-nums; letter-spacing: 0.02em;\">0:00 / 0:00</span>"]
     else []) ++
    (if controls.show_volume then
      [let accent :=
        match theme.cursor_color with
        | some c => if c.isEmpty then chars "#6c63ff" else c
        | none => chars "#6c63ff"
       chars "<input id=\"volume-" ++ uid ++
       chars "\" type=\"range\" min=\"0\" max=\"1\" step=\"0.05\" value=\"1\" style=\"width: 80px; accent-color: " ++
       accent ++ chars ";\">"]
     else []) ++
    (if controls.show_playback_rate then
      [chars "<select id=\"rate-" ++ uid ++ chars "\" style=\"background: transparent; color: " ++
       theme.time_color ++
       chars "; border: 1px solid rgba(255,255,255,0.15); border-radius: 4px; padding: 2px 4px; font-size: 0.7rem;\"><option value=\"0.5\">0.5x</option><option value=\"0.75\">0.75x</option><option value=\"1\" selected>1x</option><option value=\"1.25\">1.25x</option><option value=\"1.5\">1.5x</option><option value=\"2\">2x</option></select>"]
     else [])
  if parts.isEmpty then []
  else
    chars "<div id=\"controls-" ++ uid ++
    chars "\" style=\"display: flex; align-items: center; gap: 14px; margin-top: 14px;\">" ++
    concatAll parts ++ chars "</div>"

/-- `build_controls_js`. -/
def build_controls_js (uid : Str) (controls : Controls) (ws_var : Str) : Str :=
  let lines : List Str :=
    [chars "var fmt = function(s) \x7b var m = Math.floor(s / 60); var sec = Math.floor(s % 60); return m + \":\" + (sec < 10 ? \"0\" : \"\") + sec;\x7d;"] ++
    (if controls.show_play_button then
      [chars "var btn = document.getElementById(\"play-" ++ uid ++ chars "\");",
       chars "var iconEl = document.getElementById(\"icon-" ++ uid ++ chars "\");",
       chars "btn.addEventListener(\"click\", function() \x7b " ++ ws_var ++ chars ".playPause(); \x7d);",
       ws_var ++ chars ".on(\"play\", function() \x7b iconEl.innerHTML = \"&#9646;&#9646;\"; \x7d);",
       ws_var ++ chars ".on(\"pause\", function() \x7b iconEl.innerHTML = \"&#9654;\"; \x7d);"]
     else []) ++
    (if controls.show_time then
      [chars "var timeEl = document.getElementById(\"time-" ++ uid ++ chars "\");",
       ws_var ++ chars ".on(\"audioprocess\", function(t) \x7b timeEl.textContent = fmt(t) + \" / \" + fmt(" ++
         ws_var ++ chars ".getDuration()); \x7d);",
       ws_var ++ chars ".on(\"ready\", function() \x7b timeEl.textContent = \"0:00 / \" + fmt(" ++
         ws_var ++ chars ".getDuration()); \x7d);"]
     else []) ++
    (if controls.show_volume then
      [chars "var volEl = document.getElementById(\"volume-" ++ uid ++ chars "\");",
       chars "volEl.addEventListener(\"input\", function() \x7b " ++ ws_var ++
         chars ".setVolume(parseFloat(this.value)); \x7d);"]
     else []) ++
    (if controls.show_playback_rate then
      [chars "var rateEl = document.getElementById(\"rate-" ++ uid ++ chars "\");",
       chars "rateEl.addEventListener(\"change\", function() \x7b " ++ ws_var ++
         chars ".setPlaybackRate(parseFloat(this.value)); \x7d);"]
     else [])
  joinNl lines

/-- `controls_height`: 0 with no controls enabled, else the fixed 54px. -/
def controls_height (controls : Controls) : Nat :=
  if controls.show_play_button || controls.show_time || controls.show_volume
      || controls.show_playback_rate then 54
  else 0

/-! ### `_html.py` -/

/-- Per-character expansion of Python `html.escape(s)` (its default
`quote=True` also escapes the two quote characters). -/
def escHtmlChar (c : Char) : List Char :=
  if c = '&' then chars "&amp;"
  else if c = '<' then chars "&lt;"
  else if c = '>' then chars "&gt;"
  else if c = '"' then chars "&quot;"
  else if c = '\x27' then chars "&#x27;"
  else [c]

/-- Python `html.escape(s)` with `quote=True`. -/
def htmlEscape (s : Str) : Str := flatMapChars escHtmlChar s

/-- `_build_title_html`: the HTML-escaped title block, with the optional
marker glyph when the theme carries both marker colour and shape. -/
def _build_title_html (title : Str) (theme : Theme) : Str :=
  let marker :=
    match theme.title_marker_color, theme.title_marker_shape with
    | some c, some s =>
        if c.isEmpty || s.isEmpty then []
        else
          chars "<span style=\"width: 8px; height: 9px; flex-shrink: 0; background: " ++
          c ++ chars "; clip-path: " ++ s ++ chars ";\"></span>"
    | _, _ => []
  let safe_title := htmlEscape title
  chars "<div style=\"font-size: " ++ theme.title_font_size ++
  chars "; font-weight: " ++ theme.title_font_weight ++
  chars "; color: " ++ theme.title_color ++
  chars "; margin-bottom: 14px; display: flex; align-items: center; gap: 10px; font-family: " ++
  theme.font_family ++ chars ";\">" ++ marker ++ safe_title ++ chars "</div>"

/-- `_build_container_html`: the outer themed container around the waveform
mount point, title block and controls. -/
def _build_container_html (uid : Str) (title : Option Str) (theme : Theme)
    (controls_html : Str) : Str :=
  let accent :=
    match theme.top_accent with
    | some a =>
        if a.isEmpty then []
        else
          chars "<div style=\"position: absolute; top: 0; left: 0; right: 0; height: 2px; background: " ++
          a ++ chars "; z-index: 1;\"></div>"
    | none => []
  let pattern :=
    match theme.background_pattern with
    | some p =>
        if p.isEmpty then []
        else
          chars "<div style=\"position: absolute; inset: 0; background-image: " ++
          p ++ chars "; pointer-events: none; z-index: 0;\"></div>"
    | none => []
  let title_html :=
    match title with
    | some t => if t.isEmpty then [] else _build_title_html t theme
    | none => []
  chars "<div id=\"player-" ++ uid ++ chars "\" style=\"background: " ++
  theme.background ++ chars "; border-radius: " ++ theme.border_radius ++
  chars "; padding: " ++ theme.padding ++ chars "; border: " ++ theme.border ++
  chars "; font-family: " ++ theme.font_family ++
  chars "; margin-bottom: " ++ theme.card_margin_bottom ++
  chars "; position: relative; overflow: hidden;\">" ++ accent ++ pattern ++
  chars "<div style=\"position: relative; z-index: 1;\">" ++ title_html ++
  chars "<div id=\"waveform-" ++ uid ++
  chars "\" style=\"border-radius: 8px; overflow: hidden;\"></div>" ++
  controls_html ++ chars "</div></div>"

/-- `_build_wavesurfer_js`: the per-player script block. -/
def _build_wavesurfer_js (uid url : Str) (options : OptionSet)
    (events : Option (List EventHandler)) (plugins : Option (List PluginConfig))
    (controls_js : Str) : Str :=
  let js_opts := to_js_dict options
  let js_opts := dictSet js_opts (chars "container")
    (.str (chars "#waveform-" ++ uid))
  let js_opts := dictSet js_opts (chars "url") (.str url)
  let js_opts := dictSetdefault js_opts (chars "hideScrollbar") (.bool true)
  let js_opts := dictSetdefault js_opts (chars "cursorWidth") (.int 2)
  let opts_json := jsonDumps js_opts
  let lines : List Str :=
    [chars "(function() \x7b",
     chars "  var ws = WaveSurfer.create(" ++ opts_json ++ chars ");"] ++
    (match plugins with
     | some ps => ps.map (fun p => chars "  ws.registerPlugin(" ++ p.to_js_create ++ chars ");")
     | none => []) ++
    (match events with
     | some hs => hs.map (fun h => chars "  " ++ h.to_js (chars "ws"))
     | none => []) ++
    (if controls_js.isEmpty then []
     else (splitNl controls_js).map (fun l => chars "  " ++ l)) ++
    [chars "\x7d)();"]
  joinNl lines

/-- `build_player_html`: full HTML + JS for one player (no iframe). -/
def build_player_html (uid url : Str) (title : Option Str) (options : OptionSet)
    (theme : Theme) (controls : Controls)
    (events : Option (List EventHandler) := none)
    (plugins : Option (List PluginConfig) := none) : Str :=
  let controls_html := build_controls_html uid controls theme
  let controls_js := build_controls_js uid controls (chars "ws")
  let container := _build_container_html uid title theme controls_html
  let js_block := _build_wavesurfer_js uid url options events plugins controls_js
  container ++ '\n' :: chars "<script>" ++ '\n' :: js_block ++ '\n' :: chars "</script>"

/-- `wrap_in_iframe`: escape the full page into an iframe `srcdoc`.
The bundled `wavesurfer.min.js` text (`_WAVESURFER_JS`, read from a file
that is not part of the repository sources) is passed in as `wsjs`. -/
def wrap_in_iframe (wsjs : Str) (body_html : Str) (height : Nat) : Str :=
  let full_page :=
    chars "<!DOCTYPE html><html><head><style>body \x7b margin: 0; background: transparent; \x7d</style><script>" ++
    wsjs ++ chars "</script></head><body>" ++ body_html ++ chars "</body></html>"
  let escaped := htmlEscape full_page
  chars "<iframe srcdoc=\"" ++ escaped ++
  chars "\" style=\"width: 100%; height: " ++ natRepr height ++
  chars "px; border: none; overflow: hidden;\" allow=\"autoplay\"></iframe>"

/-- `estimate_player_height`: fixed paddings plus conditional title height,
waveform height (defaulting to 80) and controls height. -/
def estimate_player_height (title : Option Str) (theme : Theme)
    (controls : Controls) : Nat :=
  let padding_v := 40
  let title_h :=
    match title with
    | some t => if t.isEmpty then 0 else 28 + 14
    | none => 0
  let waveform_h :=
    match theme.height with
    | some h => if h ≠ 0 then h else 80
    | none => 80
  let ctrl_h := controls_height controls
  let margin := 8
  padding_v + title_h + waveform_h + ctrl_h + margin

/-! ### `_audio.py` -/

/-- An audio argument: torch tensor, numpy array, string-or-path, or any
other Python object (carrying only its type name).  The sample data type
`α` is abstract; decoding is done by external collaborators. -/
inductive Audio (α : Type) : Type where
  | tensor (a : α)
  | ndarray (a : α)
  | strOrPath (s : Str)
  | other (typeName : Str)

/-- `audio_to_data_url`: base64 WAV data-URL.  `encode` is the external
soundfile + base64 collaborator producing the base64 payload. -/
def audio_to_data_url {α : Type} (encode : α → Nat → Str) (audio : α) (sr : Nat) : Str :=
  chars "data:audio/wav;base64," ++ encode audio sr

/-- `resolve_audio`: resolve an audio input to `(url_or_data_url, sr)`.
`loadFile` is the external soundfile reader used for file paths. -/
def resolve_audio {α : Type} (encode : α → Nat → Str) (loadFile : Str → α × Nat)
    (audio : Audio α) (sr : Option Nat) : Except PyError (Str × Option Nat) :=
  match audio with
  | .tensor a | .ndarray a =>
      match sr with
      | none => .error (.valueError (chars "sr (sample rate) is required when passing a numpy array"))
      | some s => .ok (audio_to_data_url encode a s, some s)
  | .strOrPath s =>
      if (chars "http://").isPrefixOf s || (chars "https://").isPrefixOf s then
        .ok (s, sr)
      else
        let (data, file_sr) := loadFile s
        .ok (audio_to_data_url encode data file_sr, some file_sr)
  | .other ty =>
      .error (.typeError (chars "audio must be a numpy array, torch tensor, file path, or URL string — got " ++ ty))

/-! ### `_core.py` and `_layouts.py` -/

/-- The state of a constructed `WaveSurfer` player: audio reference, sample
rate, optional title, resolved theme, controls, event handlers, plugin
configurations and the free-form keyword overrides. -/
structure Player (α : Type) : Type where
  audio : Audio α
  sr : Option Nat := none
  title : Option Str := none
  theme : Theme := DARK
  controls : Controls := {}
  events : List EventHandler := []
  plugins : List PluginConfig := []
  extra : List (Str × JsVal) := []

/-- `WaveSurfer._build_options`: theme waveform defaults updated by the
user's keyword overrides, filtered through `from_kwargs`. -/
def _build_options {α : Type} (p : Player α) : OptionSet :=
  from_kwargs (dictUpdate p.theme.waveform_overrides p.extra)

/-- The `_CompareResult` display wrapper. -/
structure CompareResult : Type where
  html : Str

/-- The per-player loop of `compare`: resolve audio, build each card, and
track the running maximum estimated card height.  `uidGen i` stands for the
fresh `uuid4().hex[:12]` drawn on iteration `i`. -/
def compareCards {α : Type} (encode : α → Nat → Str) (loadFile : Str → α × Nat)
    (uidGen : Nat → Str) (i : Nat) :
    List (Player α) → Except PyError (List Str × Nat)
  | [] => .ok ([], 0)
  | p :: rest =>
      match resolve_audio encode loadFile p.audio p.sr with
      | .error e => .error e
      | .ok (url, _sr) =>
          let uid := uidGen i
          let options := _build_options p
          let card := build_player_html uid url p.title options p.theme p.controls
            (optList p.events) (optList p.plugins)
          let h := estimate_player_height p.title p.theme p.controls
          match compareCards encode loadFile uidGen (i + 1) rest with
          | .error e => .error e
          | .ok (cards, maxRest) => .ok (card :: cards, max h maxRest)

/-- `compare`: lay players out in a CSS grid inside one iframe.  For more
than one column the total height is `rows * max_card_height + 8` with
`rows` the ceiling division of the player count by the column count. -/
def layouts.compare {α : Type} (wsjs : Str) (encode : α → Nat → Str)
    (loadFile : Str → α × Nat) (uidGen : Nat → Str)
    (players : List (Player α)) (columns : Nat) :
    Except PyError CompareResult :=
  match compareCards encode loadFile uidGen 0 players with
  | .error e => .error e
  | .ok (cards, max_card_height) =>
      let (grid_style, total_height) :=
        if columns > 1 then
          (chars "display: grid; grid-template-columns: repeat(" ++ natRepr columns ++
             chars ", 1fr); gap: 8px;",
           ((cards.length + columns - 1) / columns) * max_card_height + 8)
        else
          (chars "display: grid; gap: 8px;", cards.length * max_card_height)
      let body := chars "<div style=\"" ++ grid_style ++ chars "\">" ++
        concatAll cards ++ chars "</div>"
      .ok ⟨wrap_in_iframe wsjs body total_height⟩

/-! ### The `to_html` call-site / signature mismatch (`_core.py` 105-118)

`WaveSurfer.to_html` invokes `estimate_player_height` with keyword arguments
`options` and `plugins`, and `wrap_in_iframe` with keyword argument
`plugin_names`.  Neither function declares those parameters (and neither
takes `**kwargs`), so Python's call binding raises `TypeError` before any
HTML is produced.  The binding check is modelled below: a keyword call binds
only when every supplied keyword names a declared parameter. -/

/-- The declared parameters of `_html.estimate_player_height`. -/
def estimate_player_height_param_names : List String :=
  ["title", "theme", "controls"]

/-- The keywords `WaveSurfer.to_html` passes to `estimate_player_height`. -/
def to_html_estimate_call_keywords : List String :=
  ["title", "theme", "controls", "options", "plugins"]

/-- The declared parameters of `_html.wrap_in_iframe`. -/
def wrap_in_iframe_param_names : List String :=
  ["body_html", "height"]

/-- The keywords `WaveSurfer.to_html` passes to `wrap_in_iframe`. -/
def to_html_wrap_call_keywords : List String :=
  ["body_html", "height", "plugin_names"]

/-- A Python keyword call to a function without `**kwargs` binds without a
`TypeError` exactly when every keyword names a declared parameter. -/
def kwargsAccepted (call params : List String) : Bool :=
  call.all (fun k => params.contains k)

/-! ### Remaining definitions used by the statements and witnesses -/

/-- The serialize operation as the spec words it (§4.1): JSON-encode the wire
record with the raw-code field removed, then, if `render_function` was
non-absent, splice the raw-code entry in immediately before the final
closing brace (position `length - 1`); if it is absent the result is exactly
the JSON encoding of the wire record.  Written from the spec's words, to be
compared against `to_json` (which is written from the source). -/
def serialize_spec (o : OptionSet) : Str :=
  let wire := to_js_dict o
  match o (chars "render_function") with
  | none => jsonDumps wire
  | some v =>
      let wire' := wire.filter (fun p => p.1 ≠ chars "renderFunction")
      let s := jsonDumps wire'
      s.take (s.length - 1) ++ (chars ", \"renderFunction\": " ++ pyStr v) ++
        s.drop (s.length - 1)

/-- Scanner: `true` iff the character `<` is nowhere immediately followed by
`s`.  Any string satisfying this cannot contain `<script` as a substring. -/
def noLtS : List Char → Bool
  | [] => true
  | [_] => true
  | a :: b :: l => if a = '<' && b = 's' then false else noLtS (b :: l)

/-- An `OptionSet` whose only non-absent field is `render_function`. -/
def rfOnly : OptionSet :=
  fun f => if f = chars "render_function" then some (.str (chars "drawIt")) else none

/-- A fresh registry after `register("custom", DARK)` only: one theme is
registered but the default name "dark" is not. -/
def regCustomOnly : RegState :=
  ThemeRegistry.register { themes := [], default := chars "dark" }
    (chars "custom") DARK

/-- `themesInit` after `enable("light")` succeeds. -/
def regLightDefault : RegState := { themesInit with default := chars "light" }

/-- A concrete stand-in for the external base64 WAV encoder. -/
def demoEncode : Unit → Nat → Str := fun _ _ => chars "QUJD"

/-- A concrete stand-in for the external audio file loader. -/
def demoLoadFile : Str → Unit × Nat := fun _ => ((), 44100)

/-- A concrete uid supply for witnesses. -/
def demoUid : Nat → Str := fun i => chars "uid" ++ natRepr i

/-- A concrete URL-audio player for witnesses. -/
def demoPlayer : Player Unit :=
  { audio := .strOrPath (chars "https://example.com/a.wav") }

/-! ### Infrastructure lemmas -/

theorem flatMapChars_append (f : Char → List Char) (a b : List Char) :
    flatMapChars f (a ++ b) = flatMapChars f a ++ flatMapChars f b := by
  induction a with
  | nil => rfl
  | cons c cs ih => simp [flatMapChars, ih]

theorem lt_not_mem_escHtmlChar (c : Char) : '<' ∉ escHtmlChar c := by
  unfold escHtmlChar
  split_ifs with h1 h2 h3 h4 h5
  · decide
  · decide
  · decide
  · decide
  · decide
  · intro hm
    simp only [List.mem_singleton] at hm
    exact h2 hm.symm

theorem lt_not_mem_htmlEscape (s : Str) : '<' ∉ htmlEscape s := by
  induction s with
  | nil => simp [htmlEscape, flatMapChars]
  | cons c cs ih =>
    show '<' ∉ escHtmlChar c ++ flatMapChars escHtmlChar cs
    intro hm
    rcases List.mem_append.mp hm with h | h
    · exact lt_not_mem_escHtmlChar c h
    · exact ih h

theorem digitChar_mem_digits (k : Nat) (hk : k < 10) :
    Nat.digitChar k ∈ chars "0123456789" := by
  interval_cases k <;> decide

theorem natRepr_mem_digits (n : Nat) : ∀ c ∈ natRepr n, c ∈ chars "0123456789" := by
  induction n using Nat.strong_induction_on with
  | _ n ih =>
    rw [natRepr]
    split
    · intro c hc
      simp only [List.mem_singleton] at hc
      subst hc
      exact digitChar_mem_digits n (by omega)
    · intro c hc
      rcases List.mem_append.mp hc with h | h
      · exact ih (n / 10) (Nat.div_lt_self (by omega) (by omega)) c h
      · simp only [List.mem_singleton] at h
        subst h
        exact digitChar_mem_digits (n % 10) (Nat.mod_lt n (by omega))

theorem lt_not_mem_natRepr (n : Nat) : '<' ∉ natRepr n := by
  intro hm
  have := natRepr_mem_digits n '<' hm
  revert this
  decide

theorem getLast?_ne_of_not_mem {l : List Char} {a : Char} (h : a ∉ l) :
    l.getLast? ≠ some a := by
  intro heq
  exact h (List.mem_of_getLast?_eq_some heq)

theorem noLtS_cons_cons (a b : Char) (l : List Char) :
    noLtS (a :: b :: l) = if a = '<' && b = 's' then false else noLtS (b :: l) := rfl

theorem noLtS_tail {c : Char} {l : List Char} (h : noLtS (c :: l) = true) :
    noLtS l = true := by
  cases l with
  | nil => rfl
  | cons d t =>
    rw [noLtS_cons_cons] at h
    split at h
    · exact absurd h (by simp)
    · exact h

theorem noLtS_of_not_mem {l : List Char} (h : '<' ∉ l) : noLtS l = true := by
  induction l with
  | nil => rfl
  | cons a t ih =>
    have ha : a ≠ '<' := fun he => h (he ▸ List.mem_cons_self a t)
    have ht : '<' ∉ t := fun hm => h (List.mem_cons_of_mem a hm)
    cases t with
    | nil => rfl
    | cons b t' =>
      rw [noLtS_cons_cons]
      have : (a = '<' && b = 's') = false := by
        simp [ha]
      rw [this]
      exact ih ht

theorem noLtS_app {x y : List Char} (hx : noLtS x = true) (hy : noLtS y = true)
    (hb : x.getLast? = some '<' → y.head? ≠ some 's') : noLtS (x ++ y) = true := by
  induction x with
  | nil => simpa using hy
  | cons a t ih =>
    cases t with
    | nil =>
      cases y with
      | nil => rfl
      | cons b y' =>
        show noLtS (a :: b :: y') = true
        rw [noLtS_cons_cons]
        by_cases hab : a = '<' ∧ b = 's'
        · exfalso
          exact hb (by simp [hab.1]) (by simp [hab.2])
        · have : (a = '<' && b = 's') = false := by
            rcases not_and_or.mp hab with h | h <;> simp [h]
          rw [this]
          exact hy
    | cons b t' =>
      rw [noLtS_cons_cons] at hx
      cases hcond : (decide (a = '<') && decide (b = 's')) with
      | true =>
          rw [hcond] at hx
          simp at hx
      | false =>
          rw [hcond] at hx
          simp only [Bool.false_eq_true, if_false] at hx
          have hlast : (b :: t').getLast? = some '<' → y.head? ≠ some 's' := by
            intro hl
            exact hb (by rw [List.getLast?_cons_cons]; exact hl)
          have hrec := ih hx hlast
          show noLtS (a :: (b :: t') ++ y) = true
          simp only [List.cons_append]
          rw [noLtS_cons_cons, hcond]
          simp only [Bool.false_eq_true, if_false]
          simpa using hrec

theorem noLtS_of_append_right {u t : List Char} (h : noLtS (u ++ t) = true) :
    noLtS t = true := by
  induction u with
  | nil => simpa using h
  | cons c u' ih =>
    rw [List.cons_append] at h
    exact ih (noLtS_tail h)

theorem containsSub_eq_true_iff (n h : Str) : containsSub n h = true ↔ n <:+: h := by
  unfold containsSub
  rw [List.any_eq_true]
  constructor
  · rintro ⟨t, ht, hp⟩
    rw [List.mem_tails] at ht
    rw [ List.isPrefixOf_iff_prefix] at hp
    exact List.infix_iff_prefix_suffix.mpr ⟨t, hp, ht⟩
  · intro hi
    obtain ⟨t, hp, hs⟩ := List.infix_iff_prefix_suffix.mp hi
    refine ⟨t, (List.mem_tails _ _).mpr hs, ?_⟩
    rw [ List.isPrefixOf_iff_prefix]
    exact hp

theorem no_sub_of_noLtS {l : List Char} (h : noLtS l = true) (w : Str) :
    containsSub ('<' :: 's' :: w) l = false := by
  by_contra hne
  rw [← ne_eq, Bool.ne_false_iff, containsSub_eq_true_iff] at hne
  obtain ⟨t, hp, hs⟩ := List.infix_iff_prefix_suffix.mp hne
  obtain ⟨u, hu⟩ := hs
  obtain ⟨r, hr⟩ := hp
  have ht : noLtS t = true := noLtS_of_append_right (hu ▸ h)
  rw [← hr, List.cons_append, List.cons_append, noLtS_cons_cons] at ht
  simp at ht

theorem keys_filterMap (l : List Str) (o : OptionSet) :
    ((l.filterMap (fun f => (o f).map (fun v => (camelKey f, v)))).map Prod.fst)
      = (l.filter (fun f => (o f).isSome)).map camelKey := by
  induction l with
  | nil => rfl
  | cons f t ih =>
    cases h : o f with
    | none => simp [List.filterMap_cons, List.filter_cons, h, ih]
    | some v => simp [List.filterMap_cons, List.filter_cons, h, ih]

theorem keys_to_js_dict (o : OptionSet) :
    (to_js_dict o).map Prod.fst
      = (fieldsList.filter (fun f => (o f).isSome)).map camelKey :=
  keys_filterMap fieldsList o

theorem camelNodup : (fieldsList.map camelKey).Nodup := by decide

theorem alookup_cons {β : Type} (k : Str) (p : Str × β) (t : List (Str × β)) :
    alookup k (p :: t) = if p.1 = k then some p.2 else alookup k t := by
  cases p
  rfl

theorem alookup_eq_none_of_not_mem {β : Type} {k : Str} {l : List (Str × β)}
    (h : k ∉ l.map Prod.fst) : alookup k l = none := by
  induction l with
  | nil => rfl
  | cons p t ih =>
    have hne : p.1 ≠ k := fun he =>
      h (by rw [List.map_cons, he]; exact List.mem_cons_self _ _)
    rw [alookup_cons, if_neg hne]
    exact ih (fun hm =>
      h (by rw [List.map_cons]; exact List.mem_cons_of_mem _ hm))

theorem alookup_filterMap (l : List Str) (o : OptionSet) (f : Str) (hf : f ∈ l)
    (hnd : (l.map camelKey).Nodup) :
    alookup (camelKey f) (l.filterMap (fun g => (o g).map (fun v => (camelKey g, v))))
      = o f := by
  induction l with
  | nil => cases hf
  | cons g t ih =>
    rw [List.map_cons, List.nodup_cons] at hnd
    rcases List.mem_cons.mp hf with he | hmem
    · subst he
      cases h : o f with
      | none =>
        simp only [List.filterMap_cons, h, Option.map_none']
        apply alookup_eq_none_of_not_mem
        rw [keys_filterMap]
        intro hmem'
        obtain ⟨g', hg', he'⟩ := List.mem_map.mp hmem'
        exact hnd.1 (he' ▸ List.mem_map_of_mem camelKey (List.mem_of_mem_filter hg'))
      | some v =>
        simp [List.filterMap_cons, h, Option.map_some', alookup]
    · cases h : o g with
      | none =>
        simp only [List.filterMap_cons, h, Option.map_none']
        exact ih hmem hnd.2
      | some v =>
        simp only [List.filterMap_cons, h, Option.map_some']
        have hne : camelKey g ≠ camelKey f := by
          intro he
          exact hnd.1 (he ▸ List.mem_map_of_mem camelKey hmem)
        simp only [alookup, if_neg hne]
        exact ih hmem hnd.2

theorem alookup_to_js_dict (o : OptionSet) (f : Str) (hf : f ∈ fieldsList) :
    alookup (camelKey f) (to_js_dict o) = o f :=
  alookup_filterMap fieldsList o f hf camelNodup

theorem renderFunction_key_only :
    ∀ f ∈ fieldsList, camelKey f = chars "renderFunction" →
      f = chars "render_function" := by
  decide

theorem rf_not_key_of_absent (o : OptionSet)
    (h : o (chars "render_function") = none) :
    chars "renderFunction" ∉ (to_js_dict o).map Prod.fst := by
  rw [keys_to_js_dict]
  intro hmem
  obtain ⟨g, hg, he⟩ := List.mem_map.mp hmem
  have hg' := List.mem_of_mem_filter hg
  have := renderFunction_key_only g hg' he
  subst this
  have hs := List.of_mem_filter hg
  rw [h] at hs
  exact absurd hs (by simp)

theorem filter_rf_of_absent (o : OptionSet)
    (h : o (chars "render_function") = none) :
    (to_js_dict o).filter (fun p => p.1 ≠ chars "renderFunction") = to_js_dict o := by
  rw [List.filter_eq_self]
  intro p hp
  have hk : p.1 ∈ (to_js_dict o).map Prod.fst := List.mem_map_of_mem Prod.fst hp
  have hne : p.1 ≠ chars "renderFunction" := by
    intro he
    exact rf_not_key_of_absent o h (he ▸ hk)
  simpa using hne

theorem jsonDumps_dropLast (l : List (Str × JsVal)) :
    (jsonDumps l).dropLast = '\x7b' :: renderJsonObj l := by
  show (('\x7b' :: renderJsonObj l) ++ ['\x7d']).dropLast = '\x7b' :: renderJsonObj l
  exact List.dropLast_concat

theorem jsonDumps_take (l : List (Str × JsVal)) :
    (jsonDumps l).take ((jsonDumps l).length - 1) = '\x7b' :: renderJsonObj l := by
  rw [← List.dropLast_eq_take]
  exact jsonDumps_dropLast l

theorem jsonDumps_drop (l : List (Str × JsVal)) :
    (jsonDumps l).drop ((jsonDumps l).length - 1) = ['\x7d'] := by
  show (('\x7b' :: renderJsonObj l) ++ ['\x7d']).drop
    ((('\x7b' :: renderJsonObj l) ++ ['\x7d']).length - 1) = ['\x7d']
  rw [List.length_append]
  simp only [List.length_singleton, Nat.add_sub_cancel]
  exact List.drop_left _ _

theorem to_json_eq (o : OptionSet) :
    to_json o =
      match alookup (chars "renderFunction") (to_js_dict o) with
      | none => jsonDumps ((to_js_dict o).filter (fun p => p.1 ≠ chars "renderFunction"))
      | some v =>
          (jsonDumps ((to_js_dict o).filter (fun p => p.1 ≠ chars "renderFunction"))).dropLast
            ++ (chars ", \"renderFunction\": " ++ pyStr v) ++ ['\x7d'] := rfl

theorem alookup_rf (o : OptionSet) :
    alookup (chars "renderFunction") (to_js_dict o) = o (chars "render_function") := by
  have h := alookup_to_js_dict o (chars "render_function") (by decide)
  have hc : camelKey (chars "render_function") = chars "renderFunction" := by decide
  rw [hc] at h
  exact h

theorem resolve_noneA (r : RegState) {t : Theme}
    (h : alookup r.default r.themes = some t) :
    ThemeRegistry.resolve r .noneA = .ok t := by
  unfold ThemeRegistry.resolve
  rw [h]

/-! ### The claims -/

/-- Claim C1: the claim says `to_html` returns the complete iframe-wrapped
markup and does not raise whenever the audio source resolves; the code
instead raises a `TypeError` on every call, because `to_html` passes the
keywords `options` and `plugins` to `estimate_player_height` and
`plugin_names` to `wrap_in_iframe`, none of which those functions declare.
This theorem records that neither call binds. -/
theorem c1_to_html_kwarg_mismatch :
    kwargsAccepted to_html_estimate_call_keywords estimate_player_height_param_names = false ∧
    kwargsAccepted to_html_wrap_call_keywords wrap_in_iframe_param_names = false := by
  constructor <;> rfl

/-- Claim C2, counterexample: for the Option Set whose only non-absent field
is `render_function`, the wire mapping `to_js_dict` does contain the key
`renderFunction`, contradicting the claim that it never appears there. -/
theorem c2_counterexample :
    (rfOnly (chars "render_function")).isSome = true ∧
    chars "renderFunction" ∈ (to_js_dict rfOnly).map Prod.fst := by
  constructor
  · rfl
  · decide

/-- Claim C2 (amended): when `render_function` is non-absent, `to_js_dict`
does contain the `renderFunction` key; the key is removed from the mapping
inside `to_json` (before JSON-encoding) and the raw code value is
re-inserted only during final text serialization. -/
theorem c2_amended (o : OptionSet) (v : JsVal)
    (h : o (chars "render_function") = some v) :
    chars "renderFunction" ∈ (to_js_dict o).map Prod.fst ∧
    chars "renderFunction" ∉
      ((to_js_dict o).filter (fun p => p.1 ≠ chars "renderFunction")).map Prod.fst ∧
    to_json o =
      (jsonDumps ((to_js_dict o).filter (fun p => p.1 ≠ chars "renderFunction"))).dropLast
        ++ (chars ", \"renderFunction\": " ++ pyStr v) ++ ['\x7d'] := by
  refine ⟨?_, ?_, ?_⟩
  · rw [keys_to_js_dict]
    refine List.mem_map.mpr ⟨chars "render_function", ?_, by decide⟩
    rw [List.mem_filter]
    exact ⟨by decide, by rw [h]; rfl⟩
  · intro hmem
    obtain ⟨p, hp, he⟩ := List.mem_map.mp hmem
    have hne := List.of_mem_filter hp
    simp only [ne_eq, decide_not, Bool.not_eq_eq_eq_not, Bool.not_true,
      decide_eq_false_iff_not] at hne
    exact hne he
  · rw [to_json_eq, alookup_rf, h]

/-- Claim C2 witness: the amended statement at the concrete Option Set whose
only non-absent field is `render_function`. -/
theorem c2_witness :
    rfOnly (chars "render_function") = some (JsVal.str (chars "drawIt")) ∧
    (chars "renderFunction" ∈ (to_js_dict rfOnly).map Prod.fst ∧
     chars "renderFunction" ∉
       ((to_js_dict rfOnly).filter (fun p => p.1 ≠ chars "renderFunction")).map Prod.fst ∧
     to_json rfOnly =
       (jsonDumps ((to_js_dict rfOnly).filter (fun p => p.1 ≠ chars "renderFunction"))).dropLast
         ++ (chars ", \"renderFunction\": " ++ pyStr (JsVal.str (chars "drawIt"))) ++ ['\x7d']) :=
  ⟨rfl, c2_amended rfOnly (JsVal.str (chars "drawIt")) rfl⟩

/-- Claim C3: `to_json` equals the spec-worded serialize operation: the JSON
encoding of the wire record with the raw-code field removed, with the raw
code spliced in immediately before the final closing brace when
`render_function` is non-absent, and exactly the JSON encoding of the wire
record when it is absent. -/
theorem c3_to_json_matches_spec (o : OptionSet) : to_json o = serialize_spec o := by
  rw [to_json_eq, alookup_rf]
  unfold serialize_spec
  cases h : o (chars "render_function") with
  | none =>
    dsimp only
    rw [filter_rf_of_absent o h]
  | some v =>
    dsimp only
    rw [jsonDumps_take, jsonDumps_drop, jsonDumps_dropLast]

/-- Claim C5: `to_js_dict` has exactly one key per non-absent field — its
canonical camelCase name from the table, in field order — and no key for any
absent field. -/
theorem c5_wire_record_keys (o : OptionSet) :
    ((to_js_dict o).map Prod.fst
        = (fieldsList.filter (fun f => (o f).isSome)).map camelKey) ∧
    ∀ f ∈ fieldsList, (o f).isNone = true →
      camelKey f ∉ (to_js_dict o).map Prod.fst := by
  refine ⟨keys_to_js_dict o, ?_⟩
  intro f hf hnone hmem
  rw [keys_to_js_dict] at hmem
  obtain ⟨g, hg, he⟩ := List.mem_map.mp hmem
  have hg1 := List.mem_of_mem_filter hg
  have hg2 := List.of_mem_filter hg
  have hgf : g = f := List.inj_on_of_nodup_map camelNodup hg1 hf he
  subst hgf
  rw [Option.isNone_iff_eq_none] at hnone
  rw [hnone] at hg2
  exact absurd hg2 (by simp)

/-- Claim C5 witness: the statement at the Option Set with only
`render_function` set, instantiating the absent field `autoplay`. -/
theorem c5_witness :
    ((to_js_dict rfOnly).map Prod.fst
        = (fieldsList.filter (fun f => (rfOnly f).isSome)).map camelKey) ∧
    camelKey (chars "autoplay") ∉ (to_js_dict rfOnly).map Prod.fst :=
  ⟨(c5_wire_record_keys rfOnly).1,
   (c5_wire_record_keys rfOnly).2 (chars "autoplay") (by decide) (by decide)⟩

/-- Claim C9: for the Option Set whose only non-absent field is
`render_function`, `to_json` starts with the two characters `{,` (the splice
inserts a leading comma into the empty JSON object), which no valid JSON or
JavaScript object literal may start with. -/
theorem c9_brace_comma :
    to_json rfOnly = chars "\x7b, \"renderFunction\": drawIt\x7d" ∧
    (to_json rfOnly).take 2 = ['\x7b', ','] := by
  constructor
  · decide
  · decide

/-- Claim C4, counterexample: a registry holding one theme (registered under
"custom") whose default name "dark" is unregistered: at least one theme is
registered, yet `resolve(None)` raises `KeyError`. -/
theorem c4_counterexample :
    regCustomOnly.themes.isEmpty = false ∧
    exceptOk (ThemeRegistry.resolve regCustomOnly .noneA) = false := by
  constructor
  · rfl
  · rfl

/-- Claim C4 (amended): `resolve` of a concrete Theme instance never raises
and returns it unchanged; `resolve(None)` does not raise and returns the
theme registered under the current default name provided a theme is
registered under that name (not merely provided some theme is registered);
and after a successful `enable(name)`, `resolve(None)` returns the theme
registered under `name`. -/
theorem c4_amended :
    (∀ (r : RegState) (t : Theme), ThemeRegistry.resolve r (.inst t) = .ok t) ∧
    (∀ (r : RegState) (t : Theme), alookup r.default r.themes = some t →
      ThemeRegistry.resolve r .noneA = .ok t) ∧
    (∀ (r : RegState) (n : Str) (r' : RegState),
      ThemeRegistry.enable r n = .ok r' →
      ∃ t, alookup n r'.themes = some t ∧
        ThemeRegistry.resolve r' .noneA = .ok t) := by
  refine ⟨fun r t => rfl, fun r t h => resolve_noneA r h, fun r n r' h => ?_⟩
  unfold ThemeRegistry.enable at h
  by_cases hs : (alookup n r.themes).isSome
  · rw [if_pos hs] at h
    injection h with h'
    obtain ⟨t, ht⟩ := Option.isSome_iff_exists.mp hs
    subst h'
    exact ⟨t, ht, resolve_noneA _ ht⟩
  · rw [if_neg hs] at h
    cases h

/-- Claim C4 witness: the amended statement at the module-initial registry
(dark and light registered, default "dark") and after `enable("light")`. -/
theorem c4_witness :
    ThemeRegistry.resolve themesInit (.inst LIGHT) = .ok LIGHT ∧
    ThemeRegistry.resolve themesInit .noneA = .ok DARK ∧
    (∃ t, alookup (chars "light") regLightDefault.themes = some t ∧
      ThemeRegistry.resolve regLightDefault .noneA = .ok t) :=
  ⟨c4_amended.1 themesInit LIGHT,
   c4_amended.2.1 themesInit DARK rfl,
   c4_amended.2.2 themesInit (chars "light") regLightDefault rfl⟩

/-- Claim C8: `resolve_audio` raises a `ValueError` on a numpy array exactly
when no sample rate is supplied and otherwise returns a data-URL with that
sample rate; returns HTTP(S) URL strings unchanged with the given (possibly
absent) sample rate; and raises a `TypeError` naming the unsupported type on
any other input. -/
theorem c8_resolve_audio (α : Type) (encode : α → Nat → Str) (loadFile : Str → α × Nat) :
    (∀ a : α, resolve_audio encode loadFile (.ndarray a) none =
      .error (.valueError (chars "sr (sample rate) is required when passing a numpy array"))) ∧
    (∀ (a : α) (s : Nat), resolve_audio encode loadFile (.ndarray a) (some s) =
      .ok (chars "data:audio/wav;base64," ++ encode a s, some s)) ∧
    (∀ (s : Str) (sr : Option Nat),
      ((chars "http://").isPrefixOf s = true ∨ (chars "https://").isPrefixOf s = true) →
      resolve_audio encode loadFile (.strOrPath s) sr = .ok (s, sr)) ∧
    (∀ (ty : Str) (sr : Option Nat), resolve_audio encode loadFile (.other ty) sr =
      .error (.typeError
        (chars "audio must be a numpy array, torch tensor, file path, or URL string — got " ++ ty))) := by
  refine ⟨fun a => rfl, fun a s => rfl, fun s sr h => ?_, fun ty sr => rfl⟩
  unfold resolve_audio
  rcases h with h | h <;> simp [h]

/-- Claim C8 witness: the URL-passthrough clause at a concrete HTTPS URL
with no sample rate. -/
theorem c8_witness :
    ((chars "http://").isPrefixOf (chars "https://x.wav") = true ∨
      (chars "https://").isPrefixOf (chars "https://x.wav") = true) ∧
    resolve_audio demoEncode demoLoadFile (.strOrPath (chars "https://x.wav")) none =
      .ok (chars "https://x.wav", none) :=
  ⟨Or.inr (by decide),
   (c8_resolve_audio Unit demoEncode demoLoadFile).2.2.1 (chars "https://x.wav") none
     (Or.inr (by decide))⟩

/-- Claim C10: the event table has exactly 24 entries, and for any event name
outside it `to_js` does not raise: it generates the binding with an empty
callback parameter list. -/
theorem c10_unknown_event (h : EventHandler) (ws : Str)
    (hmem : h.event ∉ EVENT_PARAMS.map Prod.fst) :
    EVENT_PARAMS.length = 24 ∧
    h.to_js ws = ws ++ '.' :: (if h.once then chars "once" else chars "on") ++
      chars "(\"" ++ h.event ++ chars "\", function() \x7b " ++ h.js ++ chars " \x7d);" := by
  refine ⟨by decide, ?_⟩
  unfold EventHandler.to_js
  rw [alookup_eq_none_of_not_mem hmem]
  dsimp only [Option.getD_none, joinCommaSpace]
  simp only [List.append_nil, List.append_assoc, List.cons_append]
  rw [← List.append_assoc (chars "\", function(") (chars ") \x7b ")]
  have hseg : chars "\", function(" ++ chars ") \x7b " = (chars "\", function() \x7b " : Str) := by
    decide
  rw [hseg]

/-- Claim C10 witness: a handler for the unknown event name "bogus". -/
theorem c10_witness :
    (chars "bogus" ∉ EVENT_PARAMS.map Prod.fst) ∧
    (EVENT_PARAMS.length = 24 ∧
     EventHandler.to_js ⟨chars "bogus", chars "x", false⟩ (chars "ws") =
       chars "ws" ++ '.' :: (if false then chars "once" else chars "on") ++
         chars "(\"" ++ chars "bogus" ++ chars "\", function() \x7b " ++
         chars "x" ++ chars " \x7d);") :=
  ⟨by decide, c10_unknown_event ⟨chars "bogus", chars "x", false⟩ (chars "ws") (by decide)⟩

theorem wrap_noLtS (wsjs body : Str) (h : Nat) :
    noLtS (wrap_in_iframe wsjs body h) = true := by
  unfold wrap_in_iframe
  dsimp only
  simp only [List.append_assoc]
  refine noLtS_app (by decide) ?_ (fun hx => absurd hx (by decide))
  refine noLtS_app (noLtS_of_not_mem (lt_not_mem_htmlEscape _)) ?_
    (fun hx => absurd hx (getLast?_ne_of_not_mem (lt_not_mem_htmlEscape _)))
  refine noLtS_app (by decide) ?_ (fun hx => absurd hx (by decide))
  exact noLtS_app (noLtS_of_not_mem (lt_not_mem_natRepr _)) (by decide)
    (fun hx => absurd hx (getLast?_ne_of_not_mem (lt_not_mem_natRepr _)))

/-- Claim C6: when the title is the string `<script>alert("xss")</script>`,
the literal substring `<script>alert` does not occur anywhere in the final
iframe-wrapped markup, for every theme, controls, options, events, plugins,
uid, url and height. -/
theorem c6_xss_title_escaped (wsjs uid url : Str) (options : OptionSet)
    (theme : Theme) (controls : Controls) (events : Option (List EventHandler))
    (plugins : Option (List PluginConfig)) (height : Nat) :
    containsSub (chars "<script>alert")
      (wrap_in_iframe wsjs
        (build_player_html uid url (some (chars "<script>alert(\"xss\")</script>"))
          options theme controls events plugins) height) = false := by
  have hx : chars "<script>alert" = '<' :: 's' :: chars "cript>alert" := by decide
  rw [hx]
  exact no_sub_of_noLtS (wrap_noLtS _ _ _) _

theorem htmlEscape_append (a b : Str) :
    htmlEscape (a ++ b) = htmlEscape a ++ htmlEscape b :=
  flatMapChars_append escHtmlChar a b

theorem escape_preserves_sub {n body : Str} (hn : n <:+: body)
    (hid : htmlEscape n = n) : n <:+: htmlEscape body := by
  obtain ⟨s, t, hst⟩ := hn
  refine ⟨htmlEscape s, htmlEscape t, ?_⟩
  rw [← hst, htmlEscape_append, htmlEscape_append, hid]

theorem sub_in_wrap {n body : Str} (wsjs : Str) (h : Nat)
    (hn : n <:+: body) (hid : htmlEscape n = n) :
    n <:+: wrap_in_iframe wsjs body h := by
  have h1 : n <:+: htmlEscape body := escape_preserves_sub hn hid
  have h2 : htmlEscape body <:+:
      htmlEscape (chars "<!DOCTYPE html><html><head><style>body \x7b margin: 0; background: transparent; \x7d</style><script>" ++
        wsjs ++ chars "</script></head><body>" ++ body ++ chars "</body></html>") := by
    refine ⟨htmlEscape ((chars "<!DOCTYPE html><html><head><style>body \x7b margin: 0; background: transparent; \x7d</style><script>" ++
      wsjs) ++ chars "</script></head><body>"), htmlEscape (chars "</body></html>"), ?_⟩
    simp only [htmlEscape_append, List.append_assoc]
  have h3 : htmlEscape (chars "<!DOCTYPE html><html><head><style>body \x7b margin: 0; background: transparent; \x7d</style><script>" ++
      wsjs ++ chars "</script></head><body>" ++ body ++ chars "</body></html>") <:+:
      wrap_in_iframe wsjs body h := by
    refine ⟨chars "<iframe srcdoc=\"",
      chars "\" style=\"width: 100%; height: " ++ natRepr h ++
        chars "px; border: none; overflow: hidden;\" allow=\"autoplay\"></iframe>", ?_⟩
    unfold wrap_in_iframe
    dsimp only
    simp only [List.append_assoc]
  exact (h1.trans h2).trans h3

theorem natRepr_two : natRepr 2 = ['2'] := by
  rw [natRepr]
  rw [dif_pos (by norm_num : (2 : Nat) < 10)]
  decide

theorem grid_decl_sub (K : Str) :
    chars "grid-template-columns: repeat(2, 1fr);" <:+:
      chars "<div style=\"" ++
        (chars "display: grid; grid-template-columns: repeat(" ++
          (natRepr 2 ++ (chars ", 1fr); gap: 8px;" ++
            (chars "\">" ++ (K ++ chars "</div>"))))) := by
  rw [natRepr_two]
  exact ⟨chars "<div style=\"" ++ chars "display: grid; ",
    chars " gap: 8px;" ++ (chars "\">" ++ (K ++ chars "</div>")), rfl⟩

/-- Claim C7: composing 4 players with `columns = 2` yields markup declaring
a 2-column CSS grid, and the iframe height passed to the wrapper equals
`ceil(4/2) = 2` times the maximum individual estimated card height plus the
fixed 8px margin. -/
theorem c7_compare_grid {α : Type} (wsjs : Str) (encode : α → Nat → Str)
    (loadFile : Str → α × Nat) (uidGen : Nat → Str) (p1 p2 p3 p4 : Player α)
    (u1 u2 u3 u4 : Str) (s1 s2 s3 s4 : Option Nat)
    (h1 : resolve_audio encode loadFile p1.audio p1.sr = .ok (u1, s1))
    (h2 : resolve_audio encode loadFile p2.audio p2.sr = .ok (u2, s2))
    (h3 : resolve_audio encode loadFile p3.audio p3.sr = .ok (u3, s3))
    (h4 : resolve_audio encode loadFile p4.audio p4.sr = .ok (u4, s4)) :
    ∃ body : Str,
      layouts.compare wsjs encode loadFile uidGen [p1, p2, p3, p4] 2 =
        .ok ⟨wrap_in_iframe wsjs body
          (2 * max (estimate_player_height p1.title p1.theme p1.controls)
              (max (estimate_player_height p2.title p2.theme p2.controls)
                (max (estimate_player_height p3.title p3.theme p3.controls)
                  (estimate_player_height p4.title p4.theme p4.controls))) + 8)⟩ ∧
      containsSub (chars "grid-template-columns: repeat(2, 1fr);")
        (wrap_in_iframe wsjs body
          (2 * max (estimate_player_height p1.title p1.theme p1.controls)
              (max (estimate_player_height p2.title p2.theme p2.controls)
                (max (estimate_player_height p3.title p3.theme p3.controls)
                  (estimate_player_height p4.title p4.theme p4.controls))) + 8)) = true := by
  unfold layouts.compare
  simp only [compareCards, h1, h2, h3, h4, List.length_cons,
    List.length_nil, Nat.max_zero]
  norm_num
  refine ⟨_, rfl, ?_⟩
  apply (containsSub_eq_true_iff _ _).mpr
  apply sub_in_wrap
  · exact grid_decl_sub _
  · decide

/-- Claim C7 witness: the statement at four concrete URL players, a concrete
uid supply and concrete collaborator stand-ins. -/
theorem c7_witness :
    resolve_audio demoEncode demoLoadFile demoPlayer.audio demoPlayer.sr =
      .ok (chars "https://example.com/a.wav", none) ∧
    (∃ body : Str,
      layouts.compare (chars "WSJS") demoEncode demoLoadFile demoUid
          [demoPlayer, demoPlayer, demoPlayer, demoPlayer] 2 =
        .ok ⟨wrap_in_iframe (chars "WSJS") body
          (2 * max (estimate_player_height demoPlayer.title demoPlayer.theme demoPlayer.controls)
              (max (estimate_player_height demoPlayer.title demoPlayer.theme demoPlayer.controls)
                (max (estimate_player_height demoPlayer.title demoPlayer.theme demoPlayer.controls)
                  (estimate_player_height demoPlayer.title demoPlayer.theme demoPlayer.controls))) + 8)⟩ ∧
      containsSub (chars "grid-template-columns: repeat(2, 1fr);")
        (wrap_in_iframe (chars "WSJS") body
          (2 * max (estimate_player_height demoPlayer.title demoPlayer.theme demoPlayer.controls)
              (max (estimate_player_height demoPlayer.title demoPlayer.theme demoPlayer.controls)
                (max (estimate_player_height demoPlayer.title demoPlayer.theme demoPlayer.controls)
                  (estimate_player_height demoPlayer.title demoPlayer.theme demoPlayer.controls))) + 8)) = true) :=
  ⟨rfl,
   c7_compare_grid (chars "WSJS") demoEncode demoLoadFile demoUid
     demoPlayer demoPlayer demoPlayer demoPlayer
     (chars "https://example.com/a.wav") (chars "https://example.com/a.wav")
     (chars "https://example.com/a.wav") (chars "https://example.com/a.wav")
     none none none none rfl rfl rfl rfl⟩
